import Mathlib

/-!
Verification development for the test-automation-agent repository.

The file embeds, as executable Lean definitions, the parts of the program
that the specification talks about:

* `agent/template_generator.py` — the Robot Framework test-matrix
  synthesizer (`TemplateGenerator.generate` over the `ROBOT_TEMPLATE`
  Jinja template);
* `agent/scanner.py` — the static extraction engine (`RepoScanner`)
  with its CLI-registry parsing, click-option parsing, merge step and
  per-operation script analysis;
* `agent/orchestrator.py` — the change-set differ
  (`TestAutomationAgent.scan_for_changes`).

External effects are modelled explicitly: the filesystem is a finite map
from path strings to file contents; a file's content either parses into a
small Python-AST model (`PyModule`) or is syntactically invalid, which
models the behaviour of the host language's parser; the results of the
regular-expression library calls on a script's text (environment-variable
keys and the five error-signal pattern match counts) are carried alongside
the parsed module, since the regex engine itself is an external library.
Python exceptions are modelled with `Except`.
-/

/-! ## String primitives

The handful of host-language string operations the program uses
(`str.replace` with one-character patterns, `str.upper`, `str.lower`,
`str.lstrip("-")`, `str.startswith`, `str.endswith`, `str.split`,
`os.path.dirname`) are defined here over the character list of a
string, so that every definition in this file evaluates by reduction. -/

/-- Python `s.replace(c, d)` for one-character patterns. -/
def replaceChar (s : String) (c d : Char) : String :=
  ⟨s.data.map (fun x => if x == c then d else x)⟩

/-- ASCII upper-casing of one character (Python `str.upper`). -/
def charUpper (c : Char) : Char :=
  if 'a' ≤ c ∧ c ≤ 'z' then Char.ofNat (c.toNat - 32) else c

/-- ASCII lower-casing of one character (Python `str.lower`). -/
def charLower (c : Char) : Char :=
  if 'A' ≤ c ∧ c ≤ 'Z' then Char.ofNat (c.toNat + 32) else c

/-- Python `s.upper()`. -/
def upperStr (s : String) : String := ⟨s.data.map charUpper⟩

/-- Python `s.lower()`. -/
def lowerStr (s : String) : String := ⟨s.data.map charLower⟩

/-- Python `s.lstrip("-")`. -/
def stripDashes (s : String) : String := ⟨s.data.dropWhile (· == '-')⟩

/-- Python `s.startswith(pre)`. -/
def startsWithStr (s pre : String) : Bool := pre.data.isPrefixOf s.data

/-- Python `s.endswith(suf)`. -/
def endsWithStr (s suf : String) : Bool := suf.data.isSuffixOf s.data

/-- Split a character list at every occurrence of a separator. -/
def splitChar (c : Char) : List Char → List (List Char)
  | [] => [[]]
  | x :: xs =>
      match splitChar c xs with
      | [] => if x == c then [[], []] else [[x]]
      | y :: ys => if x == c then [] :: y :: ys else (x :: y) :: ys

/-- Python `p.split(os.sep)` with `/` as separator. -/
def splitSlash (p : String) : List String := (splitChar '/' p.data).map (fun l => ⟨l⟩)

/-- Rejoin path components with `/`. -/
def intercalateSlash (l : List String) : String :=
  match l with
  | [] => ""
  | x :: xs => xs.foldl (fun acc y => acc ++ "/" ++ y) x

/-! ## Template generator (`agent/template_generator.py`) -/

/-- A dict-shaped argument record, with the keys produced by
`dataclasses.asdict(OperationArg)`: name, required, arg_type, default,
description.  `default` is `Option` because its Python value may be
`None` (and `None` or `""` are falsy for the template's
`arg.default or 'test-value'`). -/
structure ArgD where
  name : String
  required : Bool
  arg_type : String
  default : Option String
  description : String
deriving DecidableEq, Repr

/-- A Python value appearing in the `args` list handed to
`TemplateGenerator.generate`: either a plain dict (the normal case,
coming from `OperationInfo.to_dict()`), or a dataclass-like object that
has the five attributes but no `.get` method (so calling `.get` on it
raises `AttributeError`). -/
inductive PyArg where
  | dict (d : ArgD)
  | objLike (d : ArgD)
deriving DecidableEq, Repr

/-- The `operation_info` dict consumed by `TemplateGenerator.generate`.
Keys read with `.get` are optional; the remaining keys of
`OperationInfo.to_dict()` are carried so that we can state that the
generator ignores them. -/
structure OperationInfoDict where
  name : Option String := none
  args : Option (List PyArg) := none
  description : Option String := none
  script_path : Option String := none
  source_code : Option String := none
deriving DecidableEq, Repr

/-- The one Python exception `generate` can raise on mapping-shaped-vs-not
arguments: `AttributeError` from calling `.get` on a non-dict. -/
inductive PyError where
  | attributeError
deriving DecidableEq, Repr

/-- Jinja filter `replace('_', '-')`. -/
def dashName (s : String) : String := replaceChar s '_' '-'

/-- Jinja filter `upper`. -/
def upperName (s : String) : String := upperStr s

/-- Jinja filter `lower`. -/
def lowerName (s : String) : String := lowerStr s

/-- Jinja expression `arg.default or 'test-value'`: a `None` or empty
default is falsy and falls back to the placeholder. -/
def defaultOr (a : ArgD) : String :=
  match a.default with
  | some d => if d = "" then "test-value" else d
  | none => "test-value"

/-- The `{% for arg in required_args %}    --name    ${DEFAULT_NAME}{% endfor %}`
fragment used by several invocation lines of `ROBOT_TEMPLATE`. -/
def reqArgsInvocation (required : List ArgD) : String :=
  String.join (required.map (fun ra =>
    "    --" ++ dashName ra.name ++ "    $\x7bDEFAULT_" ++ upperName ra.name ++ "\x7d"))

/-- Start of every `Run Process` invocation line in the template. -/
def runLineStart : String :=
  "    $\x7bresult\x7d=    Run Process    $\x7bSERVICE_CONSOLE\x7d    run"

/-- Assertion line `Should Be Equal As Integers    ${result.rc}    0`. -/
def rcZeroLine : String :=
  "    Should Be Equal As Integers    $\x7bresult.rc\x7d    0\n"

/-- Assertion line `Should Not Be Equal As Integers    ${result.rc}    0`. -/
def rcNonZeroLine : String :=
  "    Should Not Be Equal As Integers    $\x7bresult.rc\x7d    0\n"

/-- The `Smoke Test` block of `ROBOT_TEMPLATE` (title, body). -/
def smokeBlock (op : String) (required : List ArgD) : String × String :=
  (op ++ " Smoke Test",
   "    [Documentation]    Verify " ++ op ++ " operation runs successfully with valid arguments\n" ++
   "    [Tags]    smoke    positive    " ++ lowerName op ++ "\n" ++
   runLineStart ++ "    " ++ op ++ reqArgsInvocation required ++ "    --dry-run\n" ++
   rcZeroLine ++
   "    Should Contain    $\x7bresult.stdout\x7d    " ++ op ++ "\n")

/-- The `With Dry Run Flag` block of `ROBOT_TEMPLATE`. -/
def dryRunBlock (op : String) (required : List ArgD) : String × String :=
  (op ++ " With Dry Run Flag",
   "    [Documentation]    Verify " ++ op ++ " operation works with --dry-run flag\n" ++
   "    [Tags]    positive    dry_run    " ++ lowerName op ++ "\n" ++
   runLineStart ++ "    " ++ op ++ reqArgsInvocation required ++ "    --dry-run\n" ++
   rcZeroLine ++
   "    Should Contain    $\x7bresult.stdout\x7d    DRY RUN\n")

/-- The `With Custom Timeout` block of `ROBOT_TEMPLATE`. -/
def timeoutBlock (op : String) (required : List ArgD) : String × String :=
  (op ++ " With Custom Timeout",
   "    [Documentation]    Verify " ++ op ++ " operation accepts custom timeout\n" ++
   "    [Tags]    positive    " ++ lowerName op ++ "\n" ++
   runLineStart ++ "    " ++ op ++ reqArgsInvocation required ++ "    --timeout    60    --dry-run\n" ++
   rcZeroLine)

/-- One `With Optional Arg` block per optional argument. -/
def optionalArgBlock (op : String) (required : List ArgD) (arg : ArgD) : String × String :=
  (op ++ " With Optional Arg " ++ arg.name,
   "    [Documentation]    Verify " ++ op ++ " works with optional argument --" ++ dashName arg.name ++ "\n" ++
   "    [Tags]    positive    " ++ lowerName op ++ "\n" ++
   runLineStart ++ "    " ++ op ++ reqArgsInvocation required ++
     "    --" ++ dashName arg.name ++ "    " ++ defaultOr arg ++ "    --dry-run\n" ++
   rcZeroLine)

/-- One `Fails Without Required Arg` block per required argument
(the invocation supplies every required argument except the one under
test: `{% for other in required_args if other.name != arg.name %}`). -/
def missingRequiredBlock (op : String) (required : List ArgD) (arg : ArgD) : String × String :=
  (op ++ " Fails Without Required Arg " ++ arg.name,
   "    [Documentation]    Verify " ++ op ++ " fails when required argument --" ++ dashName arg.name ++ " is missing\n" ++
   "    [Tags]    negative    " ++ lowerName op ++ "\n" ++
   runLineStart ++ "    " ++ op ++
     reqArgsInvocation (required.filter (fun other => other.name ≠ arg.name)) ++ "\n" ++
   rcNonZeroLine ++
   "    Should Contain    $\x7bresult.stderr\x7d    Error\n")

/-- The `Fails With Unknown Operation Name` block. -/
def unknownOpBlock (op : String) : String × String :=
  (op ++ " Fails With Unknown Operation Name",
   "    [Documentation]    Verify service-console rejects unknown operation names\n" ++
   "    [Tags]    negative    " ++ lowerName op ++ "\n" ++
   runLineStart ++ "    Invalid_Operation_XYZ\n" ++
   rcNonZeroLine ++
   "    Should Contain    $\x7bresult.stderr\x7d    Unknown operation\n")

/-- The `Fails With Empty Operation Name` block. -/
def emptyOpBlock (op : String) : String × String :=
  (op ++ " Fails With Empty Operation Name",
   "    [Documentation]    Verify service-console handles empty operation name\n" ++
   "    [Tags]    negative    edge_case    " ++ lowerName op ++ "\n" ++
   runLineStart ++ "\n" ++
   rcNonZeroLine)

/-- One `Fails With Empty Value For` block per required argument. -/
def emptyValueBlock (op : String) (arg : ArgD) : String × String :=
  (op ++ " Fails With Empty Value For " ++ arg.name,
   "    [Documentation]    Verify " ++ op ++ " rejects empty value for --" ++ dashName arg.name ++ "\n" ++
   "    [Tags]    negative    edge_case    " ++ lowerName op ++ "\n" ++
   runLineStart ++ "    " ++ op ++ "    --" ++ dashName arg.name ++ "    $\x7bEMPTY\x7d\n" ++
   rcNonZeroLine)

/-- The `Fails With Non Numeric` block emitted for each argument with
`arg_type == 'int'`. -/
def nonNumericBlock (op : String) (required : List ArgD) (arg : ArgD) : String × String :=
  (op ++ " Fails With Non Numeric " ++ arg.name,
   "    [Documentation]    Verify " ++ op ++ " rejects non-numeric value for --" ++ dashName arg.name ++ "\n" ++
   "    [Tags]    negative    " ++ lowerName op ++ "\n" ++
   runLineStart ++ "    " ++ op ++ reqArgsInvocation required ++
     "    --" ++ dashName arg.name ++ "    not_a_number\n" ++
   rcNonZeroLine)

/-- The `Fails With Negative` block emitted for each argument with
`arg_type == 'int'`. -/
def negativeValueBlock (op : String) (required : List ArgD) (arg : ArgD) : String × String :=
  (op ++ " Fails With Negative " ++ arg.name,
   "    [Documentation]    Verify " ++ op ++ " rejects negative value for --" ++ dashName arg.name ++ "\n" ++
   "    [Tags]    negative    edge_case    " ++ lowerName op ++ "\n" ++
   runLineStart ++ "    " ++ op ++ reqArgsInvocation required ++
     "    --" ++ dashName arg.name ++ "    -1\n" ++
   rcNonZeroLine)

/-- One `With Special Characters In` block per required argument. -/
def specialCharsBlock (op : String) (arg : ArgD) : String × String :=
  (op ++ " With Special Characters In " ++ arg.name,
   "    [Documentation]    Verify " ++ op ++ " handles special characters in --" ++ dashName arg.name ++ "\n" ++
   "    [Tags]    edge_case    " ++ lowerName op ++ "\n" ++
   runLineStart ++ "    " ++ op ++ "    --" ++ dashName arg.name ++ "    t€st!@#$%\n" ++
   "    # Should either succeed or fail gracefully (no crash)\n" ++
   "    Should Be True    $\x7bresult.rc\x7d >= 0\n")

/-- The `Help Flag` block. -/
def helpFlagBlock (op : String) : String × String :=
  (op ++ " Help Flag",
   "    [Documentation]    Verify --help flag works for the run command\n" ++
   "    [Tags]    positive    " ++ lowerName op ++ "\n" ++
   runLineStart ++ "    --help\n" ++
   rcZeroLine ++
   "    Should Contain    $\x7bresult.stdout\x7d    " ++ op ++ "\n")

/-- The POSITIVE TESTS section of `ROBOT_TEMPLATE`, in template order. -/
def positiveBlocks (op : String) (required optional : List ArgD) : List (String × String) :=
  [smokeBlock op required, dryRunBlock op required, timeoutBlock op required]
    ++ optional.map (optionalArgBlock op required)

/-- The NEGATIVE TESTS section of `ROBOT_TEMPLATE`, in template order:
per-required missing-arg tests, the unknown-operation and
empty-operation tests, per-required empty-value tests, and the two
numeric-violation tests for every argument whose `arg_type` is `int`. -/
def negativeBlocks (op : String) (args required : List ArgD) : List (String × String) :=
  required.map (missingRequiredBlock op required)
    ++ [unknownOpBlock op, emptyOpBlock op]
    ++ required.map (emptyValueBlock op)
    ++ (args.filter (fun a => a.arg_type == "int")).flatMap
        (fun a => [nonNumericBlock op required a, negativeValueBlock op required a])

/-- The EDGE CASE TESTS section (excluding the final help block). -/
def edgeBlocks (op : String) (required : List ArgD) : List (String × String) :=
  required.map (specialCharsBlock op)

/-- All test-case blocks rendered by `ROBOT_TEMPLATE`, in template order. -/
def testBlocks (op : String) (args required optional : List ArgD) : List (String × String) :=
  positiveBlocks op required optional
    ++ negativeBlocks op args required
    ++ (edgeBlocks op required ++ [helpFlagBlock op])

/-- Render one test-case block: its title line followed by its body. -/
def renderBlock (b : String × String) : String := b.1 ++ "\n" ++ b.2 ++ "\n"

/-- Render a list of test-case blocks. -/
def renderBlocks (bs : List (String × String)) : String :=
  String.join (bs.map renderBlock)

/-- The `*** Settings ***` and `*** Variables ***` header of
`ROBOT_TEMPLATE`, including one `${DEFAULT_NAME}` variable per argument. -/
def headerText (op : String) (args : List ArgD) : String :=
  "*** Settings ***\nDocumentation     Test suite for " ++ op ++ " operation\nLibrary           Process\nLibrary           OperatingSystem\nLibrary           String\nSuite Setup       Verify Service Console Is Available\nSuite Teardown    Cleanup Test Artifacts\n\n*** Variables ***\n$\x7bSERVICE_CONSOLE\x7d    service-console\n$\x7bTIMEOUT\x7d            120\n" ++
  String.join (args.map (fun a =>
    "$\x7bDEFAULT_" ++ upperName a.name ++ "\x7d    " ++ defaultOr a ++ "\n")) ++
  "\n*** Test Cases ***\n"

/-- The 60-character rule of the template's section separators. -/
def sectionRule : String := ⟨List.replicate 60 '='⟩

/-- The POSITIVE TESTS section separator comment. -/
def positiveComment : String :=
  "# " ++ sectionRule ++ "\n# POSITIVE TESTS\n# " ++ sectionRule ++ "\n\n"

/-- The NEGATIVE TESTS section separator comment. -/
def negativeComment : String :=
  "# " ++ sectionRule ++ "\n# NEGATIVE TESTS\n# " ++ sectionRule ++ "\n\n"

/-- The EDGE CASE TESTS section separator comment. -/
def edgeComment : String :=
  "# " ++ sectionRule ++ "\n# EDGE CASE TESTS\n# " ++ sectionRule ++ "\n\n"

/-- The fixed `*** Keywords ***` section of `ROBOT_TEMPLATE`. -/
def keywordsText : String :=
  "*** Keywords ***\nVerify Service Console Is Available\n    [Documentation]    Verify the service-console CLI is installed and accessible\n    $\x7bresult\x7d=    Run Process    $\x7bSERVICE_CONSOLE\x7d    --version\n    Should Be Equal As Integers    $\x7bresult.rc\x7d    0\n    Log    Service console version: $\x7bresult.stdout\x7d\n\nCleanup Test Artifacts\n    [Documentation]    Clean up any test artifacts created during the test run\n    Log    Cleanup complete\n"

/-- `ROBOT_TEMPLATE.render(op_name, args, required_args, optional_args)`:
header, the three commented test-case sections, and the keywords section. -/
def renderRobot (op : String) (args required optional : List ArgD) : String :=
  headerText op args
    ++ positiveComment ++ renderBlocks (positiveBlocks op required optional)
    ++ negativeComment ++ renderBlocks (negativeBlocks op args required)
    ++ edgeComment ++ renderBlocks (edgeBlocks op required ++ [helpFlagBlock op])
    ++ keywordsText

/-- The predicate of the `required_args` list comprehension:
`a.get("required", False) or (isinstance(a, dict) and a.get("required", False))`.
On a non-dict element the very first `.get` raises `AttributeError`. -/
def requiredPred (a : PyArg) : Except PyError Bool :=
  match a with
  | .dict d => Except.ok (d.required || (true && d.required))
  | .objLike _ => throw PyError.attributeError

/-- The predicate of the `optional_args` list comprehension:
`not (a.get("required", False) if isinstance(a, dict) else False)` —
this one tests `isinstance` first, so it never raises. -/
def optionalPred (a : PyArg) : Bool :=
  !(match a with
    | .dict d => d.required
    | .objLike _ => false)

/-- A Python list comprehension with a fallible filter predicate:
elements are tested left to right and the first raised exception
propagates. -/
def exceptFilter (p : PyArg → Except PyError Bool) : List PyArg → Except PyError (List PyArg)
  | [] => Except.ok []
  | a :: as =>
      match p a with
      | .error e => .error e
      | .ok b =>
          match exceptFilter p as with
          | .error e => .error e
          | .ok rest => .ok (if b then a :: rest else rest)

/-- `normalize_arg`: a dict passes through unchanged; a dataclass-like
object is rebuilt from its attributes (which carry the same five
fields). -/
def normalize_arg : PyArg → ArgD
  | .dict d => d
  | .objLike d => d

/-- The data-gathering prefix of `TemplateGenerator.generate`: read
`name` and `args` with `.get` defaults, partition into required and
optional arguments (raising `AttributeError` on any non-dict element in
the required-args comprehension), and normalize all three lists. -/
def generateParts (info : OperationInfoDict) :
    Except PyError (String × List ArgD × List ArgD × List ArgD) :=
  let op_name := info.name.getD "Unknown"
  let args := info.args.getD []
  match exceptFilter requiredPred args with
  | .error e => .error e
  | .ok required_args =>
      let optional_args := args.filter optionalPred
      Except.ok (op_name, args.map normalize_arg,
        required_args.map normalize_arg, optional_args.map normalize_arg)

/-- `TemplateGenerator.generate`: render `ROBOT_TEMPLATE` with the
operation name and the classified, normalized argument lists. -/
def TemplateGenerator.generate (info : OperationInfoDict) : Except PyError String :=
  match generateParts info with
  | .error e => .error e
  | .ok r => Except.ok (renderRobot r.1 r.2.1 r.2.2.1 r.2.2.2)

/-- The test-case blocks `TemplateGenerator.generate` emits (the blocks
of the `*** Test Cases ***` section of its output, in order). -/
def generateTestBlocks (info : OperationInfoDict) :
    Except PyError (List (String × String)) :=
  match generateParts info with
  | .error e => .error e
  | .ok r => Except.ok (testBlocks r.1 r.2.1 r.2.2.1 r.2.2.2)

/-- Wrap a list of dict-shaped argument records as generator input. -/
def dictArgs (l : List ArgD) : List PyArg := l.map PyArg.dict

/-- The spec's worked example: operation `deploy` with required argument
`target` and optional argument `force`, no numeric arguments. -/
def deployInfo : OperationInfoDict :=
  { name := some "deploy",
    args := some (dictArgs
      [{ name := "target", required := true, arg_type := "string",
         default := none, description := "" },
       { name := "force", required := false, arg_type := "string",
         default := none, description := "" }]) }

/-! ## Static extraction engine (`agent/scanner.py`) -/

/-- A Python constant appearing in the parsed entry-point file. -/
inductive PyConst where
  | str (s : String)
  | int (n : Int)
  | bool (b : Bool)
  | noneV
deriving DecidableEq, Repr

/-- Python `str()` of a constant, as used by
`arg.default = str(kw.value.value)`. -/
def pyStr : PyConst → String
  | .str s => s
  | .int n => toString n
  | .bool b => if b then "True" else "False"
  | .noneV => "None"

/-- The expression shapes `RepoScanner` inspects in the entry-point
file's syntax tree: constants, dict and list literals, attribute
references (`click.INT`) and bare name references (`int`); every other
node kind is `other`. -/
inductive PyExpr where
  | const (c : PyConst)
  | dict (keys : List PyExpr) (values : List PyExpr)
  | list (elts : List PyExpr)
  | attrRef (a : String)
  | nameRef (s : String)
  | other
deriving Repr

/-- An assignment target: a plain name or anything else. -/
inductive PyTarget where
  | name (id : String)
  | other
deriving DecidableEq, Repr

/-- A decorator on a function definition: a call whose callee is an
attribute access (`click.option(...)` has attribute name `option`),
with positional arguments and keyword arguments (`None` keyword name
models `**kwargs`); anything else is `other`. -/
inductive PyDecorator where
  | call (funcAttr : Option String) (args : List PyExpr)
      (keywords : List (Option String × PyExpr))
  | other
deriving Repr

/-- A function definition as seen by `ast.walk`: its name, decorator
list, parameter names (`a.arg for a in node.args.args`) and docstring
(`ast.get_docstring`). -/
structure PyFunctionDef where
  name : String
  decorators : List PyDecorator
  params : List String
  docstring : Option String
deriving Repr

/-- What `ast.parse` recovers from a source file, restricted to the node
kinds the scanner walks: assignments and function definitions, in
`ast.walk` order, plus the module docstring. -/
structure PyModule where
  assigns : List (List PyTarget × PyExpr)
  functionDefs : List PyFunctionDef
  moduleDoc : Option String
deriving Repr

/-- The `OperationArg` dataclass of `scanner.py`. -/
structure OperationArg where
  name : String
  required : Bool
  arg_type : String := "string"
  default : Option String := none
  description : String := ""
deriving DecidableEq, Repr

/-- One entry of `OperationInfo.functions`:
`{"name": ..., "docstring": ..., "args": [...]}`. -/
structure FuncInfo where
  name : String
  docstring : String
  args : List String
deriving DecidableEq, Repr

/-- One entry of `OperationInfo.error_conditions`:
`{"type": ..., "count": ..., "pattern": ...}`. -/
structure ErrorCondition where
  type : String
  count : Nat
  pattern : String
deriving DecidableEq, Repr

/-- The `OperationInfo` dataclass of `scanner.py`. -/
structure OperationInfo where
  name : String
  description : String
  script_path : String
  args : List OperationArg := []
  functions : List FuncInfo := []
  env_vars : List String := []
  error_conditions : List ErrorCondition := []
  source_code : String := ""
deriving DecidableEq, Repr

/-- The number of `re.findall` matches of each of the five fixed
error-signal patterns in a script's text, as returned by the external
regex library. -/
structure RegexScan where
  error_print : Nat
  exit_code : Nat
  stderr_output : Nat
  error_status : Nat
  failure_return : Nat
deriving DecidableEq, Repr

/-- The content of a file on disk: it either parses (`ast.parse`
succeeds, yielding a `PyModule`; the regex-library results on its text
— the env-var keys and the error-pattern match counts — are carried
alongside), or raising `SyntaxError` on parse. -/
inductive FileContent where
  | valid (src : String) (mod : PyModule) (envMatches : List String) (errCounts : RegexScan)
  | invalid (src : String)
deriving Repr

/-- The filesystem the scanner reads: a finite list of (path, content). -/
structure Filesystem where
  files : List (String × FileContent)
deriving Repr

/-- `open(p)` / content lookup. -/
def Filesystem.lookupPath (fs : Filesystem) (p : String) : Option FileContent :=
  fs.files.lookup p

/-- `os.path.exists(p)`. -/
def Filesystem.existsPath (fs : Filesystem) (p : String) : Bool :=
  (fs.lookupPath p).isSome

/-- `os.path.join` for a relative second component. -/
def joinPath (a b : String) : String := a ++ "/" ++ b

/-- `os.path.dirname`. -/
def dirname (p : String) : String :=
  intercalateSlash (splitSlash p).dropLast

/-- `len(p.split(os.sep))`, the sort key of the fallback walk. -/
def splitDepth (p : String) : Nat := (splitSlash p).length

/-- The one scanner exception that can escape: Python's `SyntaxError`
raised by `ast.parse` on unparsable source. -/
inductive ScanError where
  | parseFailure
deriving DecidableEq, Repr

/-- The alternate candidate paths tried when
`repo/service_console/cli.py` does not exist. -/
def candidatePaths : List String := ["cli.py", "service_console/cli.py", "src/cli.py"]

/-- Whether path `p` is found by the directory-wide fallback walk: a
file `root/service_console/cli.py` for some directory `root` at or
below the repository root. -/
def isWalkMatch (repo p : String) : Bool :=
  startsWithStr p (repo ++ "/") && endsWithStr p "/service_console/cli.py"

/-- The matches collected by the `os.walk` fallback. -/
def walkMatches (fs : Filesystem) (repo : String) : List String :=
  (fs.files.map Prod.fst).filter (isWalkMatch repo)

/-- `sorted(matches, key=lambda p: len(p.split(os.sep)))[0]`: the first
element of the stable sort by component count, i.e. the earliest match
of minimal depth. -/
def pickShortest : List String → Option String
  | [] => none
  | p :: ps =>
      some (ps.foldl (fun best q => if splitDepth q < splitDepth best then q else best) p)

/-- The scanner's mutable state: `self.repo_path` and the accumulated
`self.operations` dict. -/
structure ScannerState where
  repo_path : String
  operations : List (String × OperationInfo)
deriving Repr

/-- The entry-point file resolution of `_parse_cli`: the conventional
path, then the alternate candidates, then the fallback walk (which also
re-anchors `self.repo_path` two levels up from the found file).
Returns the resolved path and the (possibly re-anchored) repo path. -/
def resolveCliPath (fs : Filesystem) (st : ScannerState) : String × String :=
  let c0 := joinPath st.repo_path "service_console/cli.py"
  let c1 :=
    if fs.existsPath c0 then c0
    else
      match candidatePaths.find? (fun c => fs.existsPath (joinPath st.repo_path c)) with
      | some c => joinPath st.repo_path c
      | none => c0
  if fs.existsPath c1 then (c1, st.repo_path)
  else
    match pickShortest (walkMatches fs st.repo_path) with
    | some p => (p, dirname (dirname p))
    | none => (c1, st.repo_path)

/-- `elt.value.lstrip("-").replace("-", "_")`. -/
def normalizeFlag (s : String) : String :=
  replaceChar (stripDashes s) '-' '_'

/-- Python dict insertion: overwrite an existing key in place, append a
new key at the end. -/
def updateAssoc {α : Type} (l : List (String × α)) (k : String) (v : α) :
    List (String × α) :=
  if l.any (fun p => p.1 == k) then
    l.map (fun p => if p.1 == k then (k, v) else p)
  else l ++ [(k, v)]

/-- The keys of an association list (a dict's key view). -/
def keys {α : Type} (l : List (String × α)) : List String := l.map Prod.fst

/-- The per-operation data collected from one registry value: the
literal `description` and `script` strings and the `args` list of flag
names (each becoming a required `OperationArg`); malformed entries are
skipped. -/
def extractOpData (v : PyExpr) : String × String × List OperationArg :=
  match v with
  | .dict ks vs =>
      (ks.zip vs).foldl
        (fun acc kv =>
          match kv.1 with
          | .const (.str "description") =>
              match kv.2 with
              | .const (.str s) => (s, acc.2.1, acc.2.2)
              | _ => acc
          | .const (.str "script") =>
              match kv.2 with
              | .const (.str s) => (acc.1, s, acc.2.2)
              | _ => acc
          | .const (.str "args") =>
              match kv.2 with
              | .list elts =>
                  (acc.1, acc.2.1,
                   acc.2.2 ++ elts.filterMap (fun e =>
                     match e with
                     | .const (.str s) =>
                         some { name := normalizeFlag s, required := true }
                     | _ => none))
              | _ => acc
          | _ => acc)
        ("", "", [])
  | _ => ("", "", [])

/-- `_extract_operations_dict`: walk the literal `AVAILABLE_OPERATIONS`
dict; every string-literal key becomes an operation, its value
contributing description, script path and required args. -/
def extractOperationsDict (node : PyExpr) : List (String × OperationInfo) :=
  match node with
  | .dict ks vs =>
      (ks.zip vs).foldl
        (fun ops kv =>
          match kv.1 with
          | .const (.str opName) =>
              let d := extractOpData kv.2
              updateAssoc ops opName
                { name := opName, description := d.1, script_path := d.2.1,
                  args := d.2.2 }
          | _ => ops)
        []
  | _ => []

/-- Fold the keyword arguments of one `click.option` call into an
`OperationArg`, mirroring the `elif` chain on `help`, `default`,
`type` and `is_flag`. -/
def buildClickArg (nm : String) (kwargs : List (Option String × PyExpr)) : OperationArg :=
  kwargs.foldl
    (fun arg kw =>
      match kw.1 with
      | some "help" =>
          match kw.2 with
          | .const (.str s) => { arg with description := s }
          | _ => arg
      | some "default" =>
          match kw.2 with
          | .const c => { arg with default := some (pyStr c) }
          | _ => arg
      | some "type" =>
          match kw.2 with
          | .attrRef a => { arg with arg_type := a }
          | .nameRef s => { arg with arg_type := s }
          | _ => arg
      | some "is_flag" => { arg with arg_type := "flag" }
      | _ => arg)
    { name := nm, required := false }

/-- The first string-literal positional argument starting with `--`,
stripped and underscore-folded; options without one are skipped. -/
def findOptName (args : List PyExpr) : Option String :=
  args.findSome? (fun a =>
    match a with
    | .const (.str s) => if startsWithStr s "--" then some (normalizeFlag s) else none
    | _ => none)

/-- `_parse_click_options`: walk every function definition named `run`
and collect an `OperationArg` from each `*.option(...)` decorator. -/
def parseClickOptions (mod : PyModule) : List OperationArg :=
  mod.functionDefs.foldl
    (fun acc fd =>
      if fd.name == "run" then
        fd.decorators.foldl
          (fun acc d =>
            match d with
            | .call (some "option") dargs kwargs =>
                if dargs.isEmpty then acc
                else
                  match findOptName dargs with
                  | some nm => acc ++ [buildClickArg nm kwargs]
                  | none => acc
            | _ => acc)
          acc
      else acc)
    []

/-- The merge step of `_parse_cli`: every click option whose name
matches the registry argument overwrites its type, default and
description (in scan order, so the last matching record wins);
`name` and `required` are never touched. -/
def mergeArg (arg : OperationArg) (cliArgs : List OperationArg) : OperationArg :=
  cliArgs.foldl
    (fun a c =>
      if c.name == a.name then
        { a with arg_type := c.arg_type, default := c.default,
                 description := c.description }
      else a)
    arg

/-- `_parse_cli`: resolve the entry-point file (possibly re-anchoring
`self.repo_path`); a missing file yields an empty registry, an
unparsable one raises `SyntaxError`; otherwise extract the
`AVAILABLE_OPERATIONS` registry (last assignment wins), parse the
click options of `run`, and merge the option metadata into the
registry-declared arguments. -/
def parseCli (fs : Filesystem) (st : ScannerState) :
    Except ScanError (ScannerState × List (String × OperationInfo)) :=
  let pr := resolveCliPath fs st
  match fs.lookupPath pr.1 with
  | none => Except.ok ({ st with repo_path := pr.2 }, [])
  | some (.invalid _) => Except.error ScanError.parseFailure
  | some (.valid _ mod _ _) =>
      let operations := mod.assigns.foldl
        (fun ops tv =>
          if tv.1.any (fun t => t == PyTarget.name "AVAILABLE_OPERATIONS") then
            extractOperationsDict tv.2
          else ops)
        []
      let cliArgs := parseClickOptions mod
      Except.ok ({ st with repo_path := pr.2 },
            operations.map (fun p =>
              (p.1, { p.2 with args := p.2.args.map (fun a => mergeArg a cliArgs) })))

/-- The five fixed error-signal pattern strings of `scanner.py`, paired
with their symbolic kinds. -/
def errorPatternSpecs : List (String × String) :=
  [("print\\(.*\"Error:.*\"", "error_print"),
   ("sys\\.exit\\((\\d+)\\)", "exit_code"),
   ("file=sys\\.stderr", "stderr_output"),
   ("status.*error", "error_status"),
   ("return 1", "failure_return")]

/-- The entry appended for one pattern: present exactly when the match
count is positive (`if matches:`), recording kind, count and pattern. -/
def condBlock (c : Nat) (ty pat : String) : List ErrorCondition :=
  if 0 < c then [{ type := ty, count := c, pattern := pat }] else []

/-- The `error_conditions` entries produced from the five match counts,
in the fixed pattern-table order. -/
def errorConditionsOf (r : RegexScan) : List ErrorCondition :=
  condBlock r.error_print "error_print" "print\\(.*\"Error:.*\""
    ++ condBlock r.exit_code "exit_code" "sys\\.exit\\((\\d+)\\)"
    ++ condBlock r.stderr_output "stderr_output" "file=sys\\.stderr"
    ++ condBlock r.error_status "error_status" "status.*error"
    ++ condBlock r.failure_return "failure_return" "return 1"

/-- Script resolution of `_parse_operation_script`: the script path is
tried against the repo root, then under `service_console/`; `none`
when neither exists. -/
def resolveScriptContent (fs : Filesystem) (repo sp : String) : Option FileContent :=
  if fs.existsPath (joinPath repo sp) then fs.lookupPath (joinPath repo sp)
  else
    if fs.existsPath (joinPath repo (joinPath "service_console" sp)) then
      fs.lookupPath (joinPath repo (joinPath "service_console" sp))
    else none

/-- `_parse_operation_script`: a missing script is non-fatal and leaves
the model unchanged; a found script has its text recorded and parsed —
`ast.parse` raises on invalid syntax — and on success contributes the
top-level functions (docstrings, non-self parameters), the env-var
reads, the error-signal entries, and the module docstring as a
description fallback. -/
def parseOperationScript (fs : Filesystem) (repo : String) (op : OperationInfo) :
    Except ScanError OperationInfo :=
  match resolveScriptContent fs repo op.script_path with
  | none => Except.ok op
  | some (.invalid _) => Except.error ScanError.parseFailure
  | some (.valid src mod envs errs) =>
      let funcs := mod.functionDefs.map (fun fd =>
        { name := fd.name, docstring := fd.docstring.getD "",
          args := fd.params.filter (fun a => a ≠ "self") : FuncInfo })
      let op1 : OperationInfo :=
        { op with source_code := src,
                  functions := op.functions ++ funcs,
                  env_vars := envs,
                  error_conditions := op.error_conditions ++ errorConditionsOf errs }
      let op2 :=
        match mod.moduleDoc with
        | some d => if d ≠ "" ∧ op1.description = "" then { op1 with description := d } else op1
        | none => op1
      Except.ok op2

/-- The loop body of `scan`: analyse each registry operation's script in
order and store the result into `self.operations`; the first raised
`SyntaxError` aborts the loop. -/
def scanStep (fs : Filesystem) (repo : String) (acc : List (String × OperationInfo)) :
    List (String × OperationInfo) → Except ScanError (List (String × OperationInfo))
  | [] => Except.ok acc
  | (n, info) :: rest =>
      match parseOperationScript fs repo info with
      | .error e => .error e
      | .ok info' => scanStep fs repo (updateAssoc acc n info') rest

/-- `RepoScanner.scan`: parse the CLI registry, analyse every
operation's script, accumulate into `self.operations`, and return that
dict. -/
def RepoScanner.scan (fs : Filesystem) (st : ScannerState) :
    Except ScanError (ScannerState × List (String × OperationInfo)) :=
  match parseCli fs st with
  | .error e => .error e
  | .ok r =>
      match scanStep fs r.1.repo_path r.1.operations r.2 with
      | .error e => .error e
      | .ok ops => Except.ok ({ r.1 with operations := ops }, ops)

/-! ## Change-set differ (`agent/orchestrator.py`) -/

/-- `current[name].source_code` (empty for an absent name, which the
loops never query). -/
def currentSource (cur : List (String × OperationInfo)) (n : String) : String :=
  match cur.lookup n with
  | some op => op.source_code
  | none => ""

/-- `previous_operations.get(name, {}).get("source_code", "")`: the
previous snapshot maps a name to a dict that may lack the
`source_code` key. -/
def previousSource (prev : List (String × Option String)) (n : String) : String :=
  match prev.lookup n with
  | some (some s) => s
  | some none => ""
  | none => ""

/-- The name-set logic of `TestAutomationAgent.scan_for_changes`: with
no previous snapshot, every current name; otherwise the added names
(current minus previous) followed by the modified names (present in
both with differing source text).  Removed names are logged but never
included. -/
def diffOperations (previous : Option (List (String × Option String)))
    (current : List (String × OperationInfo)) : List String :=
  match previous with
  | none => keys current
  | some prev =>
      let added := (keys current).filter (fun n => !(keys prev).contains n)
      let modified := (keys current).filter (fun n =>
        (keys prev).contains n &&
          currentSource current n != previousSource prev n)
      added ++ modified

/-- `scan_for_changes`: re-scan the repository and diff the resulting
mapping against the previous snapshot. -/
def scanForChanges (fs : Filesystem) (st : ScannerState)
    (previous : Option (List (String × Option String))) :
    Except ScanError (ScannerState × List String) :=
  match RepoScanner.scan fs st with
  | .error e => .error e
  | .ok r => Except.ok (r.1, diffOperations previous r.2)

/-! ## Concrete instances used in the theorems below -/

/-- Zero match counts for every error-signal pattern. -/
def emptyRegex : RegexScan :=
  { error_print := 0, exit_code := 0, stderr_output := 0,
    error_status := 0, failure_return := 0 }

/-- A parsed module with no assignments and no function definitions. -/
def emptyModule : PyModule := { assigns := [], functionDefs := [], moduleDoc := none }

/-- An empty filesystem. -/
def fsEmpty : Filesystem := { files := [] }

/-- A freshly constructed scanner rooted at `/repo`. -/
def stRepo : ScannerState := { repo_path := "/repo", operations := [] }

/-- The entry-point module
`AVAILABLE_OPERATIONS = {"alpha": {"script": "alpha.py"}, "beta": {"script": "beta.py"}}`. -/
def cliModTwoOps : PyModule :=
  { assigns := [([PyTarget.name "AVAILABLE_OPERATIONS"],
      PyExpr.dict
        [PyExpr.const (PyConst.str "alpha"), PyExpr.const (PyConst.str "beta")]
        [PyExpr.dict [PyExpr.const (PyConst.str "script")]
           [PyExpr.const (PyConst.str "alpha.py")],
         PyExpr.dict [PyExpr.const (PyConst.str "script")]
           [PyExpr.const (PyConst.str "beta.py")]])],
    functionDefs := [], moduleDoc := none }

/-- A repository whose registry declares two operations; `alpha`'s
script has invalid syntax while `beta`'s parses fine. -/
def fsUnparsableScript : Filesystem :=
  { files :=
      [("/repo/service_console/cli.py",
        FileContent.valid "cli-src" cliModTwoOps [] emptyRegex),
       ("/repo/alpha.py", FileContent.invalid "def broken(:"),
       ("/repo/beta.py", FileContent.valid "beta-src" emptyModule [] emptyRegex)] }

/-- The operation models extracted from `fsUnparsableScript`'s registry. -/
def opAlphaScripted : OperationInfo :=
  { name := "alpha", description := "", script_path := "alpha.py" }

/-- The second registry entry of `fsUnparsableScript`. -/
def opBetaScripted : OperationInfo :=
  { name := "beta", description := "", script_path := "beta.py" }

/-- A repository whose entry-point file exists but has invalid syntax. -/
def fsInvalidCli : Filesystem :=
  { files := [("/repo/service_console/cli.py", FileContent.invalid "def (")] }

/-- The entry-point module `AVAILABLE_OPERATIONS = {"alpha": {}}`. -/
def cliModOneOp : PyModule :=
  { assigns := [([PyTarget.name "AVAILABLE_OPERATIONS"],
      PyExpr.dict [PyExpr.const (PyConst.str "alpha")] [PyExpr.dict [] []])],
    functionDefs := [], moduleDoc := none }

/-- A repository with one registered operation and no script file. -/
def fsOneOp : Filesystem :=
  { files := [("/repo/service_console/cli.py",
      FileContent.valid "cli-one" cliModOneOp [] emptyRegex)] }

/-- The operation model extracted for `alpha` from `fsOneOp`. -/
def opAlpha : OperationInfo := { name := "alpha", description := "", script_path := "" }

/-- A registry-declared required argument, for the merge example. -/
def argCount : OperationArg := { name := "count", required := true }

/-- A click-option record for the same flag with richer metadata. -/
def optCount : OperationArg :=
  { name := "count", required := false, arg_type := "INT",
    default := some "5", description := "How many" }

/-- A script-backed operation for the error-signal example. -/
def opGamma : OperationInfo :=
  { name := "gamma", description := "", script_path := "gamma.py" }

/-- Match counts for `gamma.py`: two error prints, one stderr write,
three failure returns. -/
def regexGamma : RegexScan :=
  { error_print := 2, exit_code := 0, stderr_output := 1,
    error_status := 0, failure_return := 3 }

/-- The filesystem backing the error-signal example. -/
def fsGamma : Filesystem :=
  { files := [("/repo/gamma.py",
      FileContent.valid "gamma-src" emptyModule ["HOME"] regexGamma)] }

/-- An operation model with the given name and source text, all other
fields defaulted (the differ examples only compare source text). -/
def mkOpSrc (n s : String) : OperationInfo :=
  { name := n, description := "", script_path := "", source_code := s }

/-- Differ example: previous snapshot `{A: "src1"}`. -/
def prevAB : List (String × Option String) := [("A", some "src1")]

/-- Differ example: current mapping `{A: "src2", B: "src3"}`. -/
def curAB : List (String × OperationInfo) :=
  [("A", mkOpSrc "A" "src2"), ("B", mkOpSrc "B" "src3")]

/-- Differ example: previous snapshot `{A: "src1", B: "src2"}`. -/
def prevSame : List (String × Option String) :=
  [("A", some "src1"), ("B", some "src2")]

/-- Differ example: current mapping identical to `prevSame`. -/
def curSame : List (String × OperationInfo) :=
  [("A", mkOpSrc "A" "src1"), ("B", mkOpSrc "B" "src2")]

/-- Differ example: current mapping with `B` deleted. -/
def curRemoved : List (String × OperationInfo) := [("A", mkOpSrc "A" "src1")]

/-- A generator input equal to `deployInfo` except in fields other than
the operation name and argument list. -/
def deployInfoB : OperationInfoDict :=
  { deployInfo with description := some "other docs", source_code := some "xyz" }

/-- A generator input whose args list contains a dataclass-like
(non-dict) element. -/
def objArgInfo : OperationInfoDict :=
  { name := some "deploy",
    args := some [PyArg.objLike
      { name := "target", required := true, arg_type := "string",
        default := none, description := "" }] }

/-- The titles of the test cases `generate` emits (empty on error). -/
def generatedTitles (info : OperationInfoDict) : List String :=
  match generateTestBlocks info with
  | .ok bs => bs.map Prod.fst
  | .error _ => []

/-! ## Helper lemmas -/

/-- On a list of dict-shaped arguments the required-args comprehension
never raises and keeps exactly the `required = true` entries. -/
theorem exceptFilter_dictArgs (l : List ArgD) :
    exceptFilter requiredPred (dictArgs l) =
      Except.ok (dictArgs (l.filter (fun a => a.required))) := by
  induction l with
  | nil => rfl
  | cons a as ih =>
      simp only [dictArgs] at ih ⊢
      cases h : a.required <;>
        simp [exceptFilter, requiredPred, h, ih, List.filter_cons]

/-- On dict-shaped arguments the optional-args comprehension keeps
exactly the `required = false` entries. -/
theorem filter_optionalPred_dictArgs (l : List ArgD) :
    (dictArgs l).filter optionalPred = dictArgs (l.filter (fun a => !a.required)) := by
  induction l with
  | nil => rfl
  | cons a as ih =>
      simp only [dictArgs] at ih ⊢
      cases h : a.required <;>
        simp [optionalPred, List.filter_cons, h, ih]

/-- Normalizing dict-shaped arguments is the identity. -/
theorem map_normalize_dictArgs (l : List ArgD) :
    (dictArgs l).map normalize_arg = l := by
  induction l with
  | nil => rfl
  | cons a as ih =>
      simp only [dictArgs] at ih ⊢
      simp [normalize_arg, ih, Function.comp]

/-- `generateParts` on an input with all-dict args: the name passes
through and the argument list is partitioned by the `required` flag. -/
theorem generateParts_dicts (nm : String) (l : List ArgD) (d sp sc : Option String) :
    generateParts { name := some nm, args := some (dictArgs l), description := d,
                    script_path := sp, source_code := sc } =
      Except.ok (nm, l, l.filter (fun a => a.required), l.filter (fun a => !a.required)) := by
  simp [generateParts, exceptFilter_dictArgs, filter_optionalPred_dictArgs,
        map_normalize_dictArgs]

/-- A two-element flat map doubles the length. -/
theorem twoPerLength {α β : Type} (l : List α) (f g : α → β) :
    (l.flatMap (fun a => [f a, g a])).length = 2 * l.length := by
  induction l with
  | nil => rfl
  | cons a as ih => simp [List.flatMap_cons, ih]; omega

/-- On a list containing a non-dict element, the required-args
comprehension raises `AttributeError`. -/
theorem exceptFilter_objLike (l : List PyArg) (d : ArgD)
    (h : PyArg.objLike d ∈ l) :
    exceptFilter requiredPred l = Except.error PyError.attributeError := by
  induction l with
  | nil => cases h
  | cons a as ih =>
      cases a with
      | objLike d' => simp [exceptFilter, requiredPred]
      | dict d' =>
          have hm : PyArg.objLike d ∈ as := by
            rcases List.mem_cons.mp h with h1 | h2
            · cases h1
            · exact h2
          simp [exceptFilter, requiredPred, ih hm]

/-! ## Claims -/

/-- C1 (counterexample): the spec's worked example is miscounted — for
operation `deploy` with required `[target]`, optional `[force]` and no
numeric arguments, `TemplateGenerator.generate` does NOT emit 9 test
cases (it emits 10: the claimed sum `1+1+1+O+R+1+1+R+2n+R+1` with
`R = O = 1`, `n = 0` is 10). -/
theorem deploy_testcase_count_not_nine :
    (generatedTitles deployInfo).length ≠ 9 := by decide

/-- C1 (amended): for every `OperationModel` with dict-shaped
arguments, `TemplateGenerator.generate` emits exactly
smoke(1) + dry-run(1) + timeout(1) + O optional-arg tests + R
missing-required tests + unknown-op(1) + empty-op(1) + R empty-value
tests + 2×n numeric-violation tests + R special-char tests + help(1)
test cases; the `deploy` example (R = 1, O = 1, n = 0) therefore yields
exactly 10 test cases, whose titles include "deploy Smoke Test",
"deploy Fails Without Required Arg target" and
"deploy With Optional Arg force". -/
theorem testcase_count_formula :
    (∀ (nm : String) (l : List ArgD) (d sp sc : Option String),
      generateTestBlocks { name := some nm, args := some (dictArgs l), description := d,
                           script_path := sp, source_code := sc } =
        Except.ok (testBlocks nm l (l.filter (fun a => a.required))
          (l.filter (fun a => !a.required))) ∧
      (testBlocks nm l (l.filter (fun a => a.required))
          (l.filter (fun a => !a.required))).length =
        1 + 1 + 1 + (l.filter (fun a => !a.required)).length
          + (l.filter (fun a => a.required)).length + 1 + 1
          + (l.filter (fun a => a.required)).length
          + 2 * (l.filter (fun a => a.arg_type == "int")).length
          + (l.filter (fun a => a.required)).length + 1) ∧
    (generatedTitles deployInfo).length = 10 ∧
    "deploy Smoke Test" ∈ generatedTitles deployInfo ∧
    "deploy Fails Without Required Arg target" ∈ generatedTitles deployInfo ∧
    "deploy With Optional Arg force" ∈ generatedTitles deployInfo := by
  refine ⟨fun nm l d sp sc => ⟨?_, ?_⟩, by decide, by decide, by decide, by decide⟩
  · simp [generateTestBlocks, generateParts_dicts]
  · have h2 := twoPerLength (l.filter (fun a => a.arg_type == "int"))
        (nonNumericBlock nm (l.filter (fun a => a.required)))
        (negativeValueBlock nm (l.filter (fun a => a.required)))
    simp only [testBlocks, positiveBlocks, negativeBlocks, edgeBlocks,
               List.length_append, List.length_map, List.length_cons,
               List.length_nil, h2]
    omega

/-- C5: `TemplateGenerator.generate` is a pure function of the
operation name and argument list: inputs agreeing on `name` and `args`
yield byte-identical output, and re-running on the same input is
trivially byte-identical (the embedding has no clock or nondeterminism
to consult, matching the source, which reads nothing else). -/
theorem generate_deterministic (i j : OperationInfoDict)
    (hn : i.name = j.name) (ha : i.args = j.args) :
    TemplateGenerator.generate i = TemplateGenerator.generate j ∧
    TemplateGenerator.generate i = TemplateGenerator.generate i := by
  constructor
  · simp only [TemplateGenerator.generate, generateParts, hn, ha]
  · rfl

/-- C5 witness: `deployInfo` and `deployInfoB` differ only in fields
other than `name`/`args`, and generate identical output. -/
theorem generate_deterministic_witness :
    TemplateGenerator.generate deployInfo = TemplateGenerator.generate deployInfoB ∧
    TemplateGenerator.generate deployInfo = TemplateGenerator.generate deployInfo :=
  generate_deterministic deployInfo deployInfoB rfl rfl

/-- C10: if the args list contains any non-dict element, `generate`
raises `AttributeError` in the required/optional partition step (whose
comprehension calls `.get` on every element) — the `normalize_arg`
fallback for dataclass-like objects is never reached. -/
theorem generate_raises_on_nondict (info : OperationInfoDict)
    (l : List PyArg) (d : ArgD)
    (hargs : info.args = some l) (hmem : PyArg.objLike d ∈ l) :
    TemplateGenerator.generate info = Except.error PyError.attributeError := by
  simp [TemplateGenerator.generate, generateParts, hargs,
        exceptFilter_objLike l d hmem]

/-- C10 witness: a singleton dataclass-like argument makes `generate`
raise. -/
theorem generate_raises_on_nondict_witness :
    TemplateGenerator.generate objArgInfo = Except.error PyError.attributeError :=
  generate_raises_on_nondict objArgInfo
    [PyArg.objLike { name := "target", required := true, arg_type := "string",
                     default := none, description := "" }]
    { name := "target", required := true, arg_type := "string",
      default := none, description := "" }
    rfl (by simp)

/-- Unfolding one step of the merge fold. -/
theorem mergeArg_cons (a c : OperationArg) (cs : List OperationArg) :
    mergeArg a (c :: cs) =
      mergeArg (if c.name == a.name then
        { a with arg_type := c.arg_type, default := c.default,
                 description := c.description } else a) cs := rfl

/-- The merge never changes an argument's name. -/
theorem mergeArg_name (a : OperationArg) (l : List OperationArg) :
    (mergeArg a l).name = a.name := by
  induction l generalizing a with
  | nil => rfl
  | cons c cs ih =>
      rw [mergeArg_cons, ih]
      split <;> rfl

/-- The merge never changes an argument's required flag. -/
theorem mergeArg_required (a : OperationArg) (l : List OperationArg) :
    (mergeArg a l).required = a.required := by
  induction l generalizing a with
  | nil => rfl
  | cons c cs ih =>
      rw [mergeArg_cons, ih]
      split <;> rfl

/-- The merge is the identity when every matching record would write
back the fields the argument already has. -/
theorem mergeArg_fixed (a : OperationArg) (l : List OperationArg)
    (h : ∀ c ∈ l, c.name == a.name →
      ({ a with arg_type := c.arg_type, default := c.default,
                description := c.description } : OperationArg) = a) :
    mergeArg a l = a := by
  induction l with
  | nil => rfl
  | cons c cs ih =>
      rw [mergeArg_cons]
      cases hc : (c.name == a.name) with
      | true =>
          rw [if_pos rfl, h c (List.mem_cons_self c cs) hc]
          exact ih (fun c' hc' hb => h c' (List.mem_cons_of_mem c hc') hb)
      | false =>
          rw [if_neg (by simp)]
          exact ih (fun c' hc' hb => h c' (List.mem_cons_of_mem c hc') hb)

/-- With a unique matching record `r`, the merge writes exactly `r`'s
type, default and description. -/
theorem mergeArg_unique (a r : OperationArg) (l : List OperationArg)
    (hr : r ∈ l) (hname : r.name = a.name)
    (huniq : ∀ c ∈ l, c.name = a.name → c = r) :
    mergeArg a l =
      { a with arg_type := r.arg_type, default := r.default,
               description := r.description } := by
  induction l with
  | nil => cases hr
  | cons c cs ih =>
      rw [mergeArg_cons]
      cases hc : (c.name == a.name) with
      | true =>
          have hcr : c = r := huniq c (List.mem_cons_self c cs) (by simpa using hc)
          subst hcr
          rw [if_pos rfl]
          apply mergeArg_fixed
          intro c' hc' hb
          have hc'name : c'.name = a.name := by simpa using hb
          have : c' = c := huniq c' (List.mem_cons_of_mem c hc') hc'name
          subst this
          rfl
      | false =>
          have hne : r ≠ c := by
            intro he
            subst he
            simp [hname] at hc
          have hrs : r ∈ cs := by
            rcases List.mem_cons.mp hr with h1 | h2
            · exact absurd h1 hne
            · exact h2
          rw [if_neg (by simp)]
          exact ih hrs (fun c' hc' hn => huniq c' (List.mem_cons_of_mem c hc') hn)

/-- C2: merging the click-option records into the registry-declared
argument list preserves the argument names (so unmatched option records
are never added) and the required flag, while a (unique) matching
option record overwrites the argument's type, default and description. -/
theorem merge_precedence (args cliArgs : List OperationArg) (a r : OperationArg)
    (ha : a ∈ args) (hr : r ∈ cliArgs) (hname : r.name = a.name)
    (huniq : ∀ c ∈ cliArgs, c.name = a.name → c = r) :
    ((args.map (fun x => mergeArg x cliArgs)).map (fun x => x.name)
        = args.map (fun x => x.name)) ∧
    (mergeArg a cliArgs).required = a.required ∧
    mergeArg a cliArgs =
      { a with arg_type := r.arg_type, default := r.default,
               description := r.description } ∧
    (∀ c ∈ cliArgs, c.name ∉ args.map (fun x => x.name) →
        c.name ∉ (args.map (fun x => mergeArg x cliArgs)).map (fun x => x.name)) := by
  have hnames : (args.map (fun x => mergeArg x cliArgs)).map (fun x => x.name)
      = args.map (fun x => x.name) := by
    rw [List.map_map]
    exact List.map_congr_left (fun x _ => mergeArg_name x cliArgs)
  refine ⟨hnames, mergeArg_required a cliArgs,
          mergeArg_unique a r cliArgs hr hname huniq, ?_⟩
  intro c _ hnotin
  rw [hnames]
  exact hnotin

/-- C2 witness: registry-declared required `count` merged with the
option-scan record carrying type INT, default 5 and a help text. -/
theorem merge_precedence_witness :
    (mergeArg argCount [optCount]).required = argCount.required ∧
    mergeArg argCount [optCount] =
      { argCount with arg_type := optCount.arg_type, default := optCount.default,
                      description := optCount.description } :=
  ⟨(merge_precedence [argCount] [optCount] argCount optCount (by simp) (by simp)
      rfl (fun c hc _ => by simpa using hc)).2.1,
   (merge_precedence [argCount] [optCount] argCount optCount (by simp) (by simp)
      rfl (fun c hc _ => by simpa using hc)).2.2.1⟩

/-- A script that resolves to syntactically invalid content makes
`_parse_operation_script` raise `SyntaxError`. -/
theorem parseOperationScript_invalid (fs : Filesystem) (repo : String)
    (op : OperationInfo) (src : String)
    (h : resolveScriptContent fs repo op.script_path = some (FileContent.invalid src)) :
    parseOperationScript fs repo op = Except.error ScanError.parseFailure := by
  simp [parseOperationScript, h]

/-- If any operation in the batch has an invalid resolved script, the
scan loop raises. -/
theorem scanStep_invalid (fs : Filesystem) (repo : String)
    (ops : List (String × OperationInfo)) (n : String) (op : OperationInfo) (src : String)
    (hmem : (n, op) ∈ ops)
    (hinv : resolveScriptContent fs repo op.script_path = some (FileContent.invalid src)) :
    ∀ acc, scanStep fs repo acc ops = Except.error ScanError.parseFailure := by
  induction ops with
  | nil => cases hmem
  | cons p rest ih =>
      intro acc
      obtain ⟨m, q⟩ := p
      rcases List.mem_cons.mp hmem with h1 | h2
      · have hq : q = op := congrArg Prod.snd h1.symm
        subst hq
        simp [scanStep, parseOperationScript_invalid fs repo q src hinv]
      · cases hp : parseOperationScript fs repo q with
        | error e => cases e; simp [scanStep, hp]
        | ok q' =>
            simp only [scanStep, hp]
            exact ih h2 _

/-- C3 (counterexample): a repository whose registry declares `alpha`
and `beta`, where `alpha`'s resolved script has invalid syntax — the
scan DOES abort (with the parse error), instead of degrading `alpha`'s
fields and still processing `beta`. -/
theorem scan_aborts_on_unparsable_script :
    RepoScanner.scan fsUnparsableScript stRepo = Except.error ScanError.parseFailure := by
  rfl

/-- C3 (amended): an unparsable individual operation script is fatal:
whenever the registry parse succeeds and any registered operation's
resolved script content has invalid syntax, the whole scan aborts with
the parse error (so the remaining operations are not processed).  Only
a missing/unresolvable script is non-fatal, leaving the model
unchanged. -/
theorem scan_unparsable_script_fatal (fs : Filesystem) (st st1 : ScannerState)
    (ops : List (String × OperationInfo)) (n : String) (op : OperationInfo) (src : String)
    (hcli : parseCli fs st = Except.ok (st1, ops))
    (hmem : (n, op) ∈ ops)
    (hinv : resolveScriptContent fs st1.repo_path op.script_path
        = some (FileContent.invalid src)) :
    RepoScanner.scan fs st = Except.error ScanError.parseFailure ∧
    (∀ (fs' : Filesystem) (repo : String) (op' : OperationInfo),
        resolveScriptContent fs' repo op'.script_path = none →
        parseOperationScript fs' repo op' = Except.ok op') := by
  constructor
  · simp [RepoScanner.scan, hcli, scanStep_invalid fs st1.repo_path ops n op src hmem hinv]
  · intro fs' repo op' hnone
    simp [parseOperationScript, hnone]

/-- C3 witness: the fatal-abort conclusion instantiated on the concrete
two-operation repository with `alpha.py` unparsable. -/
theorem scan_unparsable_script_fatal_witness :
    RepoScanner.scan fsUnparsableScript stRepo = Except.error ScanError.parseFailure :=
  (scan_unparsable_script_fatal fsUnparsableScript stRepo
    { repo_path := "/repo", operations := [] }
    [("alpha", opAlphaScripted), ("beta", opBetaScripted)]
    "alpha" opAlphaScripted "def broken(:"
    (by rfl) (by simp) (by rfl)).1

/-- C4: the regeneration set of `scan_for_changes`: with no previous
snapshot every current name is returned; otherwise a name is returned
iff it is a current name that is either absent from the previous
snapshot (added) or present in both with differing source text
(modified) — names only in the previous snapshot (removed) are never
returned.  The spec's three worked examples hold, with the one
difference that `{A: "src1"}` vs `{A: "src2", B: "src3"}` yields the
two names `A` and `B`; and `scan_for_changes` applies this diff to the
freshly scanned mapping. -/
theorem scan_for_changes_spec :
    (∀ cur, diffOperations none cur = keys cur) ∧
    (∀ prev cur n, n ∈ diffOperations (some prev) cur ↔
        (n ∈ keys cur ∧ (n ∉ keys prev ∨
          (n ∈ keys prev ∧ currentSource cur n ≠ previousSource prev n)))) ∧
    ("A" ∈ diffOperations (some prevAB) curAB ∧
     "B" ∈ diffOperations (some prevAB) curAB ∧
     (diffOperations (some prevAB) curAB).length = 2) ∧
    diffOperations (some prevSame) curSame = [] ∧
    diffOperations (some prevSame) curRemoved = [] ∧
    (∀ fs st prev st' cur, RepoScanner.scan fs st = Except.ok (st', cur) →
        scanForChanges fs st prev = Except.ok (st', diffOperations prev cur)) := by
  refine ⟨fun cur => rfl, ?_, by decide, by decide, by decide, ?_⟩
  · intro prev cur n
    simp only [diffOperations, List.mem_append, List.mem_filter,
               Bool.and_eq_true, Bool.not_eq_true', bne_iff_ne, ne_eq,
               List.elem_iff, Bool.eq_false_iff]
    tauto
  · intro fs st prev st' cur h
    simp [scanForChanges, h]

/-- C4 witness: the membership characterization instantiated on the
added operation `B` of the first worked example. -/
theorem scan_for_changes_spec_witness :
    "B" ∈ diffOperations (some prevAB) curAB :=
  (scan_for_changes_spec.2.1 prevAB curAB "B").mpr (by decide)

/-- C6: when the entry-point file exists at none of the candidate paths
and the directory-wide fallback walk finds nothing, extraction returns
an empty operation mapping and raises no exception (and a full scan of
a fresh scanner likewise returns an empty mapping). -/
theorem parseCli_missing_entry_point (fs : Filesystem) (st : ScannerState)
    (h0 : fs.existsPath (joinPath st.repo_path "service_console/cli.py") = false)
    (h1 : ∀ c ∈ candidatePaths, fs.existsPath (joinPath st.repo_path c) = false)
    (h2 : walkMatches fs st.repo_path = []) :
    parseCli fs st = Except.ok (st, []) ∧
    (st.operations = [] → RepoScanner.scan fs st = Except.ok (st, [])) := by
  obtain ⟨rp, ops⟩ := st
  have hf : candidatePaths.find? (fun c => fs.existsPath (joinPath rp c)) = none := by
    rw [List.find?_eq_none]
    intro c hc
    simp [h1 c hc]
  have hres : resolveCliPath fs ⟨rp, ops⟩ = (joinPath rp "service_console/cli.py", rp) := by
    simp [resolveCliPath, h0, hf, h2, pickShortest]
  have hnone : fs.lookupPath (joinPath rp "service_console/cli.py") = none := by
    cases hl : fs.lookupPath (joinPath rp "service_console/cli.py") with
    | none => rfl
    | some c =>
        exfalso
        rw [Filesystem.existsPath, hl] at h0
        simp at h0
  have hp : parseCli fs ⟨rp, ops⟩ = Except.ok (⟨rp, ops⟩, []) := by
    simp [parseCli, hres, hnone]
  refine ⟨hp, fun hops => ?_⟩
  subst hops
  simp [RepoScanner.scan, hp, scanStep]

/-- C6 witness: scanning an empty filesystem rooted at `/repo`. -/
theorem parseCli_missing_entry_point_witness :
    parseCli fsEmpty stRepo = Except.ok (stRepo, []) ∧
    RepoScanner.scan fsEmpty stRepo = Except.ok (stRepo, []) :=
  ⟨(parseCli_missing_entry_point fsEmpty stRepo rfl (by decide) rfl).1,
   (parseCli_missing_entry_point fsEmpty stRepo rfl (by decide) rfl).2 rfl⟩

/-- C7: if the resolved entry-point file exists but its content has
invalid syntax, the whole scan fails: the `SyntaxError` propagates out
of `scan` rather than being swallowed into an empty or partial
result. -/
theorem scan_invalid_entry_point_fatal (fs : Filesystem) (st : ScannerState) (src : String)
    (h : fs.lookupPath (resolveCliPath fs st).1 = some (FileContent.invalid src)) :
    RepoScanner.scan fs st = Except.error ScanError.parseFailure := by
  have hp : parseCli fs st = Except.error ScanError.parseFailure := by
    simp [parseCli, h]
  simp [RepoScanner.scan, hp]

/-- C7 witness: a repository whose `service_console/cli.py` is
unparsable makes the whole scan fail. -/
theorem scan_invalid_entry_point_fatal_witness :
    RepoScanner.scan fsInvalidCli stRepo = Except.error ScanError.parseFailure :=
  scan_invalid_entry_point_fatal fsInvalidCli stRepo "def (" (by rfl)

/-- Filtering one pattern's conditional entry by kind keeps it exactly
when the kinds agree. -/
theorem filter_condBlock (c : Nat) (ty pat ty' : String) :
    (condBlock c ty pat).filter (fun e => e.type == ty') =
      if ty == ty' then condBlock c ty pat else [] := by
  by_cases hc : 0 < c <;> cases h : (ty == ty') <;>
    simp [condBlock, hc, h, List.filter_cons]

/-- Membership in a pattern's conditional entry forces a positive count
and fixes the entry. -/
theorem mem_condBlock (e : ErrorCondition) (c : Nat) (ty pat : String)
    (h : e ∈ condBlock c ty pat) :
    0 < c ∧ e = { type := ty, count := c, pattern := pat } := by
  by_cases hc : 0 < c <;> simp [condBlock, hc] at h
  exact ⟨hc, h⟩

/-- C8: for every scanned operation script, the resulting
`error_conditions` list contains exactly one entry per error-signal
pattern with at least one match, recording the pattern's symbolic kind
and its match count; patterns with zero matches produce no entry. -/
theorem error_signals_spec (fs : Filesystem) (repo : String) (op : OperationInfo)
    (src : String) (mod : PyModule) (envs : List String) (errs : RegexScan)
    (hres : resolveScriptContent fs repo op.script_path
        = some (FileContent.valid src mod envs errs))
    (hinit : op.error_conditions = []) :
    (parseOperationScript fs repo op).map (fun o => o.error_conditions)
        = Except.ok (errorConditionsOf errs) ∧
    (∀ e ∈ errorConditionsOf errs, 0 < e.count) ∧
    (errorConditionsOf errs).filter (fun e => e.type == "error_print")
        = condBlock errs.error_print "error_print" "print\\(.*\"Error:.*\"" ∧
    (errorConditionsOf errs).filter (fun e => e.type == "exit_code")
        = condBlock errs.exit_code "exit_code" "sys\\.exit\\((\\d+)\\)" ∧
    (errorConditionsOf errs).filter (fun e => e.type == "stderr_output")
        = condBlock errs.stderr_output "stderr_output" "file=sys\\.stderr" ∧
    (errorConditionsOf errs).filter (fun e => e.type == "error_status")
        = condBlock errs.error_status "error_status" "status.*error" ∧
    (errorConditionsOf errs).filter (fun e => e.type == "failure_return")
        = condBlock errs.failure_return "failure_return" "return 1" := by
  refine ⟨?_, ?_, ?_, ?_, ?_, ?_, ?_⟩
  · simp only [parseOperationScript, hres]
    cases hd : mod.moduleDoc with
    | none => simp [hinit, Except.map]
    | some d =>
        by_cases hdesc : d ≠ "" ∧ op.description = "" <;>
          simp [hinit, hdesc, Except.map]
  · intro e he
    simp only [errorConditionsOf, List.mem_append] at he
    rcases he with ((((h | h) | h) | h) | h) <;>
      · rcases mem_condBlock e _ _ _ h with ⟨hc, he⟩
        subst he
        exact hc
  all_goals
    simp [errorConditionsOf, List.filter_append, filter_condBlock]

/-- C8 witness: the `gamma.py` script with counts
(error_print 2, exit_code 0, stderr_output 1, error_status 0,
failure_return 3). -/
theorem error_signals_spec_witness :
    (parseOperationScript fsGamma "/repo" opGamma).map (fun o => o.error_conditions)
        = Except.ok (errorConditionsOf regexGamma) ∧
    (∀ e ∈ errorConditionsOf regexGamma, 0 < e.count) ∧
    (errorConditionsOf regexGamma).filter (fun e => e.type == "error_print")
        = condBlock regexGamma.error_print "error_print" "print\\(.*\"Error:.*\"" ∧
    (errorConditionsOf regexGamma).filter (fun e => e.type == "exit_code")
        = condBlock regexGamma.exit_code "exit_code" "sys\\.exit\\((\\d+)\\)" ∧
    (errorConditionsOf regexGamma).filter (fun e => e.type == "stderr_output")
        = condBlock regexGamma.stderr_output "stderr_output" "file=sys\\.stderr" ∧
    (errorConditionsOf regexGamma).filter (fun e => e.type == "error_status")
        = condBlock regexGamma.error_status "error_status" "status.*error" ∧
    (errorConditionsOf regexGamma).filter (fun e => e.type == "failure_return")
        = condBlock regexGamma.failure_return "failure_return" "return 1" :=
  error_signals_spec fsGamma "/repo" opGamma "gamma-src" emptyModule ["HOME"]
    regexGamma rfl rfl

/-- Dict insertion never loses an existing key. -/
theorem mem_keys_updateAssoc {α : Type} (l : List (String × α)) (k : String) (v : α)
    (n : String) (h : n ∈ keys l) : n ∈ keys (updateAssoc l k v) := by
  unfold updateAssoc
  split
  · rcases List.mem_map.mp h with ⟨p, hp, hpn⟩
    refine List.mem_map.mpr ⟨if p.1 == k then (k, v) else p, List.mem_map_of_mem _ hp, ?_⟩
    cases hpk : (p.1 == k) with
    | true =>
        have : p.1 = k := by simpa using hpk
        simp [hpk, ← this, hpn]
    | false => simp [hpk, hpn]
  · unfold keys
    rw [List.map_append]
    exact List.mem_append_left _ h

/-- The scan loop only ever inserts into `self.operations`: every key
present before the loop is present afterwards. -/
theorem scanStep_keys_mono (fs : Filesystem) (repo : String)
    (ops : List (String × OperationInfo)) :
    ∀ acc res, scanStep fs repo acc ops = Except.ok res →
      ∀ n, n ∈ keys acc → n ∈ keys res := by
  induction ops with
  | nil =>
      intro acc res h n hn
      injection h with h
      subst h
      exact hn
  | cons p rest ih =>
      intro acc res h n hn
      obtain ⟨m, q⟩ := p
      cases hp : parseOperationScript fs repo q with
      | error e =>
          rw [show scanStep fs repo acc ((m, q) :: rest)
              = match parseOperationScript fs repo q with
                | .error e => .error e
                | .ok q' => scanStep fs repo (updateAssoc acc m q') rest from rfl,
             hp] at h
          cases h
      | ok q' =>
          rw [show scanStep fs repo acc ((m, q) :: rest)
              = match parseOperationScript fs repo q with
                | .error e => .error e
                | .ok q' => scanStep fs repo (updateAssoc acc m q') rest from rfl,
             hp] at h
          exact ih _ res h n (mem_keys_updateAssoc acc m q' n hn)

/-- `_parse_cli` never touches `self.operations`. -/
theorem parseCli_preserves_operations (fs : Filesystem) (st : ScannerState)
    (r : ScannerState × List (String × OperationInfo))
    (h : parseCli fs st = Except.ok r) : r.1.operations = st.operations := by
  unfold parseCli at h
  simp only [] at h
  rcases hl : fs.lookupPath (resolveCliPath fs st).1 with _ | c
  · rw [hl] at h
    simp only [] at h
    injection h with h
    subst h
    rfl
  · cases c with
    | invalid s =>
        rw [hl] at h
        simp only [] at h
        cases h
    | valid s m e er =>
        rw [hl] at h
        simp only [] at h
        injection h with h
        subst h
        rfl

/-- Inversion of a successful `scan`: it is the registry parse followed
by the script loop, returning the accumulated operations both as the
new scanner state and as the result. -/
theorem scan_ok_inv (fs : Filesystem) (st : ScannerState) (st' : ScannerState)
    (res : List (String × OperationInfo))
    (h : RepoScanner.scan fs st = Except.ok (st', res)) :
    ∃ r ops, parseCli fs st = Except.ok r ∧
      scanStep fs r.1.repo_path r.1.operations r.2 = Except.ok ops ∧
      st' = { r.1 with operations := ops } ∧ res = ops := by
  unfold RepoScanner.scan at h
  cases hc : parseCli fs st with
  | error e =>
      rw [hc] at h
      simp only [] at h
      cases h
  | ok r =>
      rw [hc] at h
      simp only [] at h
      cases hs : scanStep fs r.1.repo_path r.1.operations r.2 with
      | error e =>
          rw [hs] at h
          simp only [] at h
          cases h
      | ok ops =>
          rw [hs] at h
          simp only [] at h
          injection h with h
          exact ⟨r, ops, rfl, hs, (congrArg Prod.fst h).symm, (congrArg Prod.snd h).symm⟩

/-- C9: `RepoScanner` accumulates across scans: a second `scan()` call
on the same scanner instance returns a mapping whose key set contains
every key of the first call's result, even if the operation was
removed from the repository in between — a reused scanner never
observes a removal. -/
theorem scanner_accumulates (fs fs' : Filesystem) (st st1 st2 : ScannerState)
    (r1 r2 : List (String × OperationInfo))
    (h1 : RepoScanner.scan fs st = Except.ok (st1, r1))
    (h2 : RepoScanner.scan fs' st1 = Except.ok (st2, r2)) :
    ∀ n, n ∈ keys r1 → n ∈ keys r2 := by
  obtain ⟨r, ops, _, _, hst, hres⟩ := scan_ok_inv fs st st1 r1 h1
  have hops : st1.operations = r1 := by rw [hst, hres]
  obtain ⟨r', ops', hc', hs', _, hres'⟩ := scan_ok_inv fs' st1 st2 r2 h2
  have hpres : r'.1.operations = st1.operations :=
    parseCli_preserves_operations fs' st1 r' hc'
  intro n hn
  rw [hres']
  refine scanStep_keys_mono fs' r'.1.repo_path r'.2 r'.1.operations ops' hs' n ?_
  rw [hpres, hops]
  exact hn

/-- C9 witness: scanning `fsOneOp` registers `alpha`; rescanning the
same scanner against an empty filesystem still returns `alpha`. -/
theorem scanner_accumulates_witness :
    "alpha" ∈ keys [("alpha", opAlpha)] :=
  scanner_accumulates fsOneOp fsEmpty stRepo
    { repo_path := "/repo", operations := [("alpha", opAlpha)] }
    { repo_path := "/repo", operations := [("alpha", opAlpha)] }
    [("alpha", opAlpha)] [("alpha", opAlpha)]
    (by rfl) (by rfl) "alpha" (by simp [keys])
